import Mathlib

/-!
Shallow embedding of `src/backend/app.py` (image-upscaling FastAPI service).

Conventions used throughout:
* Python `float` values that reach arithmetic are modelled as `ℚ`; where IEEE
  comparison semantics matter (the scale-factor domain check can receive NaN
  or infinities) a dedicated `PyFloat` type with IEEE comparison tables is used.
* Python `int()` applied to a nonnegative float is `Int.floor`; on negative
  values it truncates toward zero, hence the `truncQ` definition.
* Fallible Python code (`try`/`except`) is modelled with `Except`: the body
  returns `Except String α`, and the `except` handler is an explicit `match`.
* The PIL library is external to the repository; its operations are modelled
  by explicit executable functions, each carrying a doc comment stating which
  PIL behaviour it models.
-/

/-- Configuration constant `MAX_FILE_SIZE = 10 * 1024 * 1024` (app.py line 97). -/
def MAX_FILE_SIZE : ℕ := 10 * 1024 * 1024

/-- Configuration constant `ALLOWED_EXTENSIONS` (app.py line 98); the Python
set literal is modelled as a list in its written order. -/
def ALLOWED_EXTENSIONS : List String := [".jpg", ".jpeg", ".png", ".webp"]

/-- Configuration constant `ALLOWED_MIME_TYPES` (app.py line 99). -/
def ALLOWED_MIME_TYPES : List String := ["image/jpeg", "image/png", "image/webp"]

/-- Configuration constant `MAX_DIMENSION = 4000` (app.py line 100). -/
def MAX_DIMENSION : ℕ := 4000

/-- Rate-limit constant `RATE_LIMIT_REQUESTS = 10` (app.py line 43). -/
def RATE_LIMIT_REQUESTS : ℕ := 10

/-- Rate-limit constant `RATE_LIMIT_WINDOW = 60` seconds (app.py line 44). -/
def RATE_LIMIT_WINDOW : ℚ := 60

/-- A Python `float` as it reaches the endpoint's scale-factor check: either a
finite value (modelled exactly as a rational), one of the two infinities, or
NaN. -/
inductive PyFloat where
  | finite (val : ℚ)
  | posinf
  | neginf
  | nan
deriving DecidableEq, Repr

/-- IEEE-754 semantics of Python's `<=` on floats: any comparison involving
NaN is false; `-inf` is below everything else; `+inf` is above everything
else; finite values compare as rationals. -/
def pyLe : PyFloat → PyFloat → Bool
  | .nan, _ => false
  | _, .nan => false
  | .neginf, _ => true
  | _, .neginf => false
  | _, .posinf => true
  | .posinf, _ => false
  | .finite a, .finite b => decide (a ≤ b)

/-- IEEE-754 semantics of Python's `<` on floats (see `pyLe`). -/
def pyLt : PyFloat → PyFloat → Bool
  | .nan, _ => false
  | _, .nan => false
  | .neginf, .neginf => false
  | .neginf, _ => true
  | _, .neginf => false
  | .posinf, _ => false
  | _, .posinf => true
  | .finite a, .finite b => decide (a < b)

/-- The endpoint's scale-factor domain check (app.py line 247):
`if scale_factor <= 0 or scale_factor > 4.0`.  `scale_factor > 4.0` is
`4.0 < scale_factor`. -/
def scaleFactorRejected (s : PyFloat) : Bool :=
  pyLe s (.finite 0) || pyLt (.finite 4) s

/-- A starlette `UploadFile` as seen by `validate_image_file`: `filename` and
`content_type` are `Optional[str]`, and the `size` attribute (always present
on the class) is `Optional[int]`, `None` when the declared size is unknown. -/
structure UploadFileM where
  filename : Option String
  size : Option ℕ
  content_type : Option String
deriving DecidableEq, Repr

/-- Index of the last occurrence of `c` in `cs`, or `-1` when absent
(the semantics of Python's `str.rfind`). -/
def lastIdx (cs : List Char) (c : Char) : ℤ :=
  cs.enum.foldl (fun acc p => if p.2 = c then (p.1 : ℤ) else acc) (-1)

/-- Models `os.path.splitext(p)[1]` (posixpath): the extension starts at the
last dot that comes after the last path separator, provided some character
strictly between the separator and that dot is not itself a dot (so names
consisting only of leading dots, like `.bashrc`, have no extension). -/
def splitextExtension (p : String) : String :=
  let cs := p.toList
  let sepIndex := lastIdx cs '/'
  let dotIndex := lastIdx cs '.'
  if sepIndex < dotIndex ∧
      ∃ q ∈ cs.enum, sepIndex < (q.1 : ℤ) ∧ (q.1 : ℤ) < dotIndex ∧ q.2 ≠ '.' then
    ⟨cs.drop dotIndex.toNat⟩
  else ""

/-- Python `str.lower()` applied characterwise (all inputs of interest are
ASCII filenames, where Python's and Lean's per-character lowercase agree). -/
def pyLower (s : String) : String := ⟨s.toList.map Char.toLower⟩

/-- Error message of the size check (app.py line 117), with
`MAX_FILE_SIZE // (1024*1024) = 10` already substituted. -/
def sizeExceededMessage : String := "File size exceeds maximum limit of 10MB"

/-- Error message of the extension check (app.py line 123); the iteration
order of the Python set literal is modelled as its written order. -/
def unsupportedFormatMessage : String :=
  "Unsupported file format. Allowed: " ++ String.intercalate ", " ALLOWED_EXTENSIONS

/-- Error message of the MIME check (app.py line 127). -/
def invalidContentTypeMessage : String := "Invalid content type. Expected image file."

/-- The MIME-type check at the end of `validate_image_file` (app.py lines
126-129): `file.content_type not in ALLOWED_MIME_TYPES` is true when
`content_type` is `None`. -/
def validateMimeType (file : UploadFileM) : Bool × String :=
  match file.content_type with
  | some ct =>
      if ALLOWED_MIME_TYPES.contains ct then (true, "") else (false, invalidContentTypeMessage)
  | none => (false, invalidContentTypeMessage)

/-- Body of the `try` block of `ImageProcessor.validate_image_file` (app.py
lines 114-129).  The size check is `hasattr(file, 'size') and file.size >
MAX_FILE_SIZE`; `hasattr` is always true on starlette's `UploadFile`, and
when `file.size` is `None` the comparison `None > int` raises `TypeError`,
modelled as the `.error` branch.  The extension check runs only when
`file.filename` is truthy (neither `None` nor the empty string). -/
def validateImageFileBody (file : UploadFileM) : Except String (Bool × String) :=
  match file.size with
  | none => .error "TypeError: '>' not supported between instances of 'NoneType' and 'int'"
  | some n =>
    if MAX_FILE_SIZE < n then
      .ok (false, sizeExceededMessage)
    else
      match file.filename with
      | some name =>
        if name ≠ "" then
          if ¬ ALLOWED_EXTENSIONS.contains (splitextExtension (pyLower name)) then
            .ok (false, unsupportedFormatMessage)
          else
            .ok (validateMimeType file)
        else
          .ok (validateMimeType file)
      | none => .ok (validateMimeType file)

/-- `ImageProcessor.validate_image_file` (app.py lines 107-133): the `except
Exception` handler turns any exception raised inside the checks into
`(False, "File validation failed")`. -/
def validate_image_file (file : UploadFileM) : Bool × String :=
  match validateImageFileBody file with
  | .ok r => r
  | .error _ => (false, "File validation failed")

/-- An in-memory PIL bitmap: `mode` is PIL's mode string (the code inspects
`img.mode` against the strings `RGBA`, `LA`, `RGB`, `L`), `width`/`height`
are `img.size`, `pixels` is the pixel grid (rows of pixels, each pixel a list
of channel values 0..255), and `palette` is the palette table of indexed
(`P`-mode) images. -/
structure PILImage where
  mode : String
  width : ℕ
  height : ℕ
  pixels : List (List (List ℕ))
  palette : List (List ℕ)
deriving DecidableEq, Repr

/-- Pillow's fixed-point `MULDIV255(a, b)` macro (`src/libImaging/Imaging.h`):
`t = a*b + 128; result = (t + (t >> 8)) >> 8`, an exact division by 255 with
rounding for inputs in 0..255. -/
def muldiv255 (a b : ℕ) : ℕ :=
  let t := a * b + 128
  (t + t / 256) / 256

/-- One channel of Pillow's `BLEND` used by `Image.paste` with an `L`-mode
mask: the result is the alpha-weighted blend of the background channel `bg`
and the pasted channel `fg`, with mask value `a` (0 = keep background,
255 = take the pasted image). -/
def blendChannel (bg fg a : ℕ) : ℕ :=
  muldiv255 bg (255 - a) + muldiv255 fg a

/-- RGB channels of the pasted source pixel: `Image.paste` first converts the
pasted image to the background's mode (`RGB`), so an `LA` gray value is
expanded to three equal channels and an `RGBA` pixel contributes its first
three channels. -/
def pasteSourceRGB (mode : String) (px : List ℕ) : List ℕ :=
  if mode = "LA" then
    let v := px.getD 0 0
    [v, v, v]
  else [px.getD 0 0, px.getD 1 0, px.getD 2 0]

/-- The mask used by app.py lines 155/157: `img.split()[-1]`, i.e. the last
channel of the pixel (the alpha channel for both `RGBA` and `LA`). -/
def pixelAlpha (mode : String) (px : List ℕ) : ℕ :=
  if mode = "LA" then px.getD 1 0 else px.getD 3 0

/-- Per-pixel effect of `background.paste(img, mask=img.split()[-1])` with an
all-white `RGB` background (app.py lines 153-157): each output channel blends
white (255) with the source channel, weighted by the pixel's alpha. -/
def compositePixel (mode : String) (px : List ℕ) : List ℕ :=
  let a := pixelAlpha mode px
  (pasteSourceRGB mode px).map (fun c => blendChannel 255 c a)

/-- The alpha-handling branch of `process_image` (app.py lines 151-158):
`Image.new('RGB', img.size, (255, 255, 255))` followed by
`background.paste(img, mask=img.split()[-1])` — an opaque white background of
identical dimensions with the source composited over it, alpha dropped. -/
def compositeOntoWhite (img : PILImage) : PILImage :=
  { mode := "RGB", width := img.width, height := img.height,
    pixels := img.pixels.map (fun row => row.map (compositePixel img.mode)),
    palette := [] }

/-- Models PIL `convert('RGB')` per pixel: a palette index is looked up in the
palette table, a single-channel value is expanded to three equal channels,
and any other mode contributes its first three channels. -/
def convertPixelRGB (mode : String) (palette : List (List ℕ)) (px : List ℕ) : List ℕ :=
  if mode = "P" then palette.getD (px.getD 0 0) [0, 0, 0]
  else if mode = "1" ∨ mode = "L" ∨ mode = "I" ∨ mode = "F" then
    let v := px.getD 0 0
    [v, v, v]
  else [px.getD 0 0, px.getD 1 0, px.getD 2 0]

/-- Models `img.convert('RGB')` (app.py line 160): same dimensions, mode
`RGB`, channels expanded per `convertPixelRGB`. -/
def convertToRGB (img : PILImage) : PILImage :=
  { mode := "RGB", width := img.width, height := img.height,
    pixels := img.pixels.map (fun row => row.map (convertPixelRGB img.mode img.palette)),
    palette := [] }

/-- Color normalization of `process_image` (app.py lines 151-160):
`RGBA`/`LA` are composited onto white, modes other than `RGB`/`L` are
converted to `RGB`, and `RGB`/`L` pass through unchanged. -/
def normalizeMode (img : PILImage) : PILImage :=
  if img.mode = "RGBA" ∨ img.mode = "LA" then compositeOntoWhite img
  else if ¬ (img.mode = "RGB" ∨ img.mode = "L") then convertToRGB img
  else img

/-- Python `int()` on a float: truncation toward zero, i.e. floor on
nonnegative values and ceiling on negative ones. -/
def truncQ (q : ℚ) : ℤ := if 0 ≤ q then ⌊q⌋ else ⌈q⌉

/-- Result of the target-dimension computation: the `new_width`/`new_height`
Python ints and the value the local variable `scale_factor` holds after the
clamp block (the factor actually used for the resize and reported in the
metadata). -/
structure ScaledDims where
  newWidth : ℤ
  newHeight : ℤ
  effectiveScale : ℚ
deriving DecidableEq, Repr

/-- Target-dimension computation of `process_image` (app.py lines 166-176):
`new_width = int(original_width * scale_factor)` and likewise for the height;
if either exceeds `MAX_DIMENSION`, `scale_factor` is reassigned to
`min(MAX_DIMENSION / original_width, MAX_DIMENSION / original_height,
scale_factor)` (Python's three-argument `min` is the nested binary `min`) and
both dimensions are recomputed from it. -/
def computeTargetDims (origW origH : ℕ) (scale : ℚ) : ScaledDims :=
  let newW := truncQ ((origW : ℚ) * scale)
  let newH := truncQ ((origH : ℚ) * scale)
  if (MAX_DIMENSION : ℤ) < newW ∨ (MAX_DIMENSION : ℤ) < newH then
    let s := min (min ((MAX_DIMENSION : ℚ) / (origW : ℚ)) ((MAX_DIMENSION : ℚ) / (origH : ℚ))) scale
    ⟨truncQ ((origW : ℚ) * s), truncQ ((origH : ℚ) * s), s⟩
  else ⟨newW, newH, scale⟩

/-- Pixel grid of the resized image: index-based resampling producing exactly
`w` columns and `h` rows.  Models `img.resize((w, h), BICUBIC)` up to pixel
values: the bicubic 4x4 convolution kernel itself is abstracted (only the
dimensions, mode and determinism of the result are relied upon below). -/
def resampleGrid (img : PILImage) (w h : ℕ) : List (List (List ℕ)) :=
  (List.range h).map (fun i =>
    (List.range w).map (fun j =>
      (img.pixels.getD (i * img.height / h) []).getD (j * img.width / w) []))

/-- Models `img.resize((w, h), Image.Resampling.BICUBIC)` (app.py lines
181-184): PIL raises `ValueError` on negative target dimensions and otherwise
returns an image of exactly the requested size in the same mode. -/
def resizeImage (img : PILImage) (w h : ℤ) : Except String PILImage :=
  if w < 0 ∨ h < 0 then
    .error "ValueError: height and width must be >= 0"
  else
    .ok { mode := img.mode, width := w.toNat, height := h.toNat,
          pixels := resampleGrid img w.toNat h.toNat, palette := img.palette }

/-- Models `upscaled_img.filter(ImageFilter.UnsharpMask(radius=1, percent=150,
threshold=3))` (app.py line 188): the filter returns an image of the same
mode and size; the sharpening convolution itself is abstracted as the
identity on the pixel grid (no property below depends on sharpened pixel
values). -/
def unsharpMask (img : PILImage) : PILImage := img

/-- Deterministic stand-in for the JPEG bitstream produced by
`upscaled_img.save(buffer, format='JPEG', quality=95, optimize=True)`:
a serialization of the dimensions and pixel grid. -/
def jpegBits (img : PILImage) : List ℕ :=
  img.width :: img.height :: img.pixels.flatten.flatten

/-- Models the JPEG encode step (app.py lines 191-199): the JPEG format has no
zero-dimension images, so Pillow raises when asked to encode an empty image
(`SystemError`/`ValueError: cannot write empty image as JPEG`), and it raises
`OSError` for modes JPEG cannot hold; otherwise the encode succeeds
deterministically. -/
def jpegEncode (img : PILImage) : Except String (List ℕ) :=
  if img.width = 0 ∨ img.height = 0 then .error "cannot write empty image as JPEG"
  else if ¬ (img.mode = "RGB" ∨ img.mode = "L") then
    .error ("cannot write mode " ++ img.mode ++ " as JPEG")
  else .ok (jpegBits img)

/-- A `width`/`height` dictionary in the metadata (app.py lines 203-204).
Fields are `ℤ` because `processed_size` holds the Python ints
`new_width`/`new_height`. -/
structure SizePair where
  width : ℤ
  height : ℤ
deriving DecidableEq, Repr

/-- The metadata dictionary built by `process_image` (app.py lines 202-208). -/
structure MetadataM where
  original_size : SizePair
  processed_size : SizePair
  scale_factor : ℚ
  format : String
  file_size_bytes : ℕ
deriving DecidableEq, Repr

/-- Assembles the metadata dictionary exactly as app.py lines 202-208: the
processed size is `new_width`/`new_height` and `scale_factor` is the value of
the local variable after the clamp block. -/
def buildMetadata (origW origH : ℕ) (d : ScaledDims) (outLen : ℕ) : MetadataM :=
  { original_size := ⟨origW, origH⟩,
    processed_size := ⟨d.newWidth, d.newHeight⟩,
    scale_factor := d.effectiveScale,
    format := "JPEG",
    file_size_bytes := outLen }

/-- Outcome of `Image.open(io.BytesIO(image_data))` on a byte payload: PIL is
external, so a payload is represented by what decoding it yields — either an
exception message (corrupt or non-image bytes) or a decoded bitmap.  PIL
decoding is deterministic, so equal payloads have equal outcomes. -/
inductive DecodeOutcome where
  | failure (msg : String)
  | image (img : PILImage)
deriving DecidableEq, Repr

/-- A raised `fastapi.HTTPException`: status code and detail string. -/
structure HTTPExceptionM where
  status_code : ℕ
  detail : String
deriving DecidableEq, Repr

/-- The `try` body of `ImageProcessor.process_image` (app.py lines 147-210)
for a decoded payload: normalize the color mode, compute clamped target
dimensions, resize, sharpen, encode to JPEG, and return the bytes with the
metadata.  Any stage failure propagates as the exception message. -/
def processImageBody (decoded : DecodeOutcome) (scale : ℚ) :
    Except String (List ℕ × MetadataM) :=
  match decoded with
  | .failure msg => .error msg
  | .image raw =>
    let img := normalizeMode raw
    let d := computeTargetDims img.width img.height scale
    match resizeImage img d.newWidth d.newHeight with
    | .error e => .error e
    | .ok upscaled =>
      match jpegEncode (unsharpMask upscaled) with
      | .error e => .error e
      | .ok outputBytes => .ok (outputBytes, buildMetadata img.width img.height d outputBytes.length)

/-- `ImageProcessor.process_image` (app.py lines 136-214): the
`except Exception` handler (lines 212-214) converts any failure inside the
body into `HTTPException(status_code=422, detail=f"Image processing failed:
...")`. -/
def process_image (decoded : DecodeOutcome) (scale : ℚ) :
    Except HTTPExceptionM (List ℕ × MetadataM) :=
  match processImageBody decoded scale with
  | .ok r => .ok r
  | .error msg => .error ⟨422, "Image processing failed: " ++ msg⟩

/-- An HTTP response as assembled by the service: status code, response
headers, media type and streamed body for the success path, and the JSON
error body (`detail` plus optional `error_code`) for error paths. -/
structure ResponseM where
  status_code : ℕ
  headers : List (String × String)
  media_type : Option String
  body_bytes : Option (List ℕ)
  json_detail : Option String
  error_code : Option String
deriving DecidableEq, Repr

/-- Translation of a raised `HTTPException` into the final JSON response.
The app registers status-based exception handlers (app.py lines 324-344)
which starlette prefers over the default handler, so a 413 or 422 exception
is answered with that handler's fixed body; any other status keeps the
exception's own detail. -/
def renderHTTPException (e : HTTPExceptionM) : ResponseM :=
  if e.status_code = 413 then
    ⟨413, [], none, none, some "File too large. Maximum size allowed: 10MB", some "FILE_TOO_LARGE"⟩
  else if e.status_code = 422 then
    ⟨422, [], none, none, some "Validation error occurred", some "VALIDATION_ERROR"⟩
  else ⟨e.status_code, [], none, none, some e.detail, none⟩

/-- One request to `POST /upscale` as the handler sees it: the upload-file
metadata, the fully read body bytes, the PIL decode outcome of those bytes
(see `DecodeOutcome`), and the parsed `scale_factor` parameter. -/
structure UpscaleRequest where
  file : UploadFileM
  file_content : List ℕ
  decoded : DecodeOutcome
  scale_factor : PyFloat
deriving DecidableEq, Repr

/-- Outcome of the `processor.process_image(file_content, scale_factor)` call
(app.py line 271) over the possibly non-finite parsed scale factor.  A
non-finite factor that survives the domain check reaches
`int(original_width * scale_factor)`, which raises (`ValueError` for NaN,
`OverflowError` for an infinity) — unless decoding already failed, since
`Image.open` runs first.  Either way the `except Exception` handler of
`process_image` yields a 422 `HTTPException`. -/
def transformOutcome (req : UpscaleRequest) : Except HTTPExceptionM (List ℕ × MetadataM) :=
  match req.scale_factor with
  | .finite q => process_image req.decoded q
  | .nan =>
    match req.decoded with
    | .failure msg => .error ⟨422, "Image processing failed: " ++ msg⟩
    | .image _ => .error ⟨422, "Image processing failed: cannot convert float NaN to integer"⟩
  | _ =>
    match req.decoded with
    | .failure msg => .error ⟨422, "Image processing failed: " ++ msg⟩
    | .image _ => .error ⟨422, "Image processing failed: cannot convert float infinity to integer"⟩

/-- The cause string wrapped into the 422 detail by `transformOutcome` when
the transform fails (and `""` when it succeeds). -/
def transformCause (req : UpscaleRequest) : String :=
  match req.scale_factor with
  | .finite q =>
    match processImageBody req.decoded q with
    | .error msg => msg
    | .ok _ => ""
  | .nan =>
    match req.decoded with
    | .failure msg => msg
    | .image _ => "cannot convert float NaN to integer"
  | _ =>
    match req.decoded with
    | .failure msg => msg
    | .image _ => "cannot convert float infinity to integer"

/-- Models `str(metadata)` in the `X-Image-Metadata` header (app.py line 282)
as a deterministic rendering of the metadata value. -/
def metadataHeaderValue (md : MetadataM) : String := reprStr md

/-- The 200 streaming response of `upscale_image` (app.py lines 274-286):
`output_filename = f"upscaled_IMAGEFILENAME"` renders Python `None` as the string
`None`, while the `X-Original-Filename` header uses `file.filename or
"unknown"` (falsy `None` and `""` both become `unknown`). -/
def successResponse (req : UpscaleRequest) (outputBytes : List ℕ) (md : MetadataM) : ResponseM :=
  let fname := match req.file.filename with
    | some n => n
    | none => "None"
  let orig := match req.file.filename with
    | some n => if n ≠ "" then n else "unknown"
    | none => "unknown"
  { status_code := 200,
    headers := [("Content-Disposition", "attachment; filename=upscaled_" ++ fname),
                ("X-Image-Metadata", metadataHeaderValue md),
                ("X-Original-Filename", orig),
                ("X-Processing-Status", "success")],
    media_type := some "image/jpeg",
    body_bytes := some outputBytes,
    json_detail := none,
    error_code := none }

/-- The `POST /upscale` handler `upscale_image` (app.py lines 230-298), after
the request body has been read: the scale-factor domain check runs first and
raises 400; then `validate_image_file`, whose failure raises 400 with its
message; then the actual-size check raising 413; then the transform, whose
`HTTPException` is re-raised unchanged by the `except HTTPException` clause
(lines 291-292).  Every raised exception is rendered by
`renderHTTPException`. -/
def upscale_image (req : UpscaleRequest) : ResponseM :=
  if scaleFactorRejected req.scale_factor then
    renderHTTPException ⟨400, "Scale factor must be between 0.1 and 4.0"⟩
  else
    match validate_image_file req.file with
    | (false, msg) => renderHTTPException ⟨400, msg⟩
    | (true, _) =>
      if MAX_FILE_SIZE < req.file_content.length then
        renderHTTPException ⟨413, "File too large. Maximum size: 10MB"⟩
      else
        match transformOutcome req with
        | .error e => renderHTTPException e
        | .ok (outputBytes, md) => successResponse req outputBytes md

/-- The module-level `request_counts` defaultdict (app.py line 42): a mapping
from client address to the list of recorded request timestamps, missing keys
reading as the empty list. -/
def RateState : Type := List (String × List ℚ)

/-- Reads a client's recorded timestamps (`request_counts[client_ip]`),
defaulting to the empty list. -/
def lookupCounts (st : RateState) (ip : String) : List ℚ :=
  match List.lookup ip st with
  | some l => l
  | none => []

/-- Stores a client's timestamp list (`request_counts[client_ip] = ...`). -/
def setCounts (st : RateState) (ip : String) (l : List ℚ) : RateState :=
  (ip, l) :: st.filter (fun p => decide (p.1 ≠ ip))

/-- The pruning comprehension of app.py lines 61-64: keep exactly the
timestamps with `now - req_time < RATE_LIMIT_WINDOW`. -/
def pruneTimestamps (now : ℚ) (l : List ℚ) : List ℚ :=
  l.filter (fun t => decide (now - t < RATE_LIMIT_WINDOW))

/-- The five security headers set on app.py lines 79-83, in assignment
order. -/
def securityHeaderList : List (String × String) :=
  [("X-Content-Type-Options", "nosniff"),
   ("X-Frame-Options", "DENY"),
   ("X-XSS-Protection", "1; mode=block"),
   ("Strict-Transport-Security", "max-age=31536000; includeSubDomains"),
   ("Referrer-Policy", "strict-origin-when-cross-origin")]

/-- Header assignment `response.headers[k] = v`: replaces the value of an
existing header of that name, otherwise appends it. -/
def setHeader (hs : List (String × String)) (k v : String) : List (String × String) :=
  if hs.any (fun p => decide (p.1 = k)) then
    hs.map (fun p => if p.1 = k then (k, v) else p)
  else hs ++ [(k, v)]

/-- Applies the five security-header assignments to a response. -/
def applySecurityHeaders (r : ResponseM) : ResponseM :=
  { r with headers := securityHeaderList.foldl (fun hs p => setHeader hs p.1 p.2) r.headers }

/-- The early-return 429 response of app.py lines 67-71.  Note it is returned
before the header-assignment lines run. -/
def rateLimitResponse : ResponseM :=
  ⟨429, [], none, none, some "Rate limit exceeded. Please try again later.", none⟩

/-- The `add_security_headers` middleware (app.py lines 54-85): prune the
client's timestamps, reject with the bare 429 JSON when at least
`RATE_LIMIT_REQUESTS` remain (recording nothing new), otherwise append the
current timestamp, run the downstream handler (`inner` models the response
`await call_next(request)` returns), and add the security headers to its
response. -/
def add_security_headers (st : RateState) (client_ip : String) (now : ℚ)
    (inner : ResponseM) : ResponseM × RateState :=
  let kept := pruneTimestamps now (lookupCounts st client_ip)
  let st1 := setCounts st client_ip kept
  if RATE_LIMIT_REQUESTS ≤ kept.length then (rateLimitResponse, st1)
  else (applySecurityHeaders inner, setCounts st1 client_ip (kept ++ [now]))

/-- `process_image` threaded through the server's only cross-request mutable
state, the `request_counts` mapping.  The function body (app.py lines
136-214) references no module-level mutable binding (`request_counts` is
never read or written there), calls no time or randomness source, and its
only ambient effect is logging, which does not influence the returned value —
so the state passes through unchanged and the result does not depend on it. -/
def process_image_stateful (st : RateState) (decoded : DecodeOutcome) (scale : ℚ) :
    Except HTTPExceptionM (List ℕ × MetadataM) × RateState :=
  (process_image decoded scale, st)


/-- Concrete one-pixel RGB test image. -/
def imgW : PILImage := ⟨"RGB", 1, 1, [[[7, 8, 9]]], []⟩

/-- Bytes produced by processing `imgW` at scale factor 2 in the model. -/
def outW : List ℕ := [2, 2, 7, 8, 9, 7, 8, 9, 7, 8, 9, 7, 8, 9]

/-- Metadata produced by processing `imgW` at scale factor 2. -/
def mdW : MetadataM := ⟨⟨1, 1⟩, ⟨2, 2⟩, 2, "JPEG", 14⟩

/-- Valid upload-file metadata used by several concrete runs. -/
def fileW : UploadFileM := ⟨some "photo.png", some 100, some "image/png"⟩

/-- A request whose parsed scale factor is NaN, with an otherwise fully valid
file and a decodable payload. -/
def nanRequest : UpscaleRequest := ⟨fileW, [1, 2, 3], .image imgW, .nan⟩

/-- Reads a response header by name: the first pair with that name, the way a
header mapping is queried. -/
def getHeader (hs : List (String × String)) (k : String) : Option String :=
  match hs with
  | [] => none
  | p :: rest => if p.1 = k then some p.2 else getHeader rest k

/-- Rate-limiter state in which the client at address 9.9.9.9 has ten recorded
requests at time 0. -/
def tenStamps : List ℚ := [0, 0, 0, 0, 0, 0, 0, 0, 0, 0]

/-- A `request_counts` state holding `tenStamps` for client 9.9.9.9. -/
def fullState : RateState := [("9.9.9.9", tenStamps)]

/-- A representative downstream 200 response for middleware runs. -/
def innerResponse : ResponseM := ⟨200, [], some "image/jpeg", some [1], none, none⟩

/-- A request whose payload bytes are not a decodable image (PIL raises
`cannot identify image file`), with valid file metadata and scale factor 2. -/
def corruptRequest : UpscaleRequest :=
  ⟨fileW, [1, 2], .failure "cannot identify image file", .finite 2⟩

/-- A concrete 100 by 100 all-black RGB image. -/
def img100 : PILImage :=
  ⟨"RGB", 100, 100, List.replicate 100 (List.replicate 100 [0, 0, 0]), []⟩

/-- A request with the 100 by 100 image and the tiny accepted scale factor
1/1000, for which the computed output width is floor(100/1000) = 0. -/
def smallScaleRequest : UpscaleRequest := ⟨fileW, [1, 2, 3], .image img100, .finite (1 / 1000)⟩

/-- A 2 by 1 RGBA image with one fully transparent and one fully opaque
pixel. -/
def imgRGBA : PILImage := ⟨"RGBA", 2, 1, [[[10, 20, 30, 0], [40, 50, 60, 255]]], []⟩

theorem truncQ_of_nonneg {q : ℚ} (h : 0 ≤ q) : truncQ q = ⌊q⌋ := if_pos h

theorem truncQ_nonneg {q : ℚ} (h : 0 ≤ q) : 0 ≤ truncQ q := by
  rw [truncQ_of_nonneg h]
  exact Int.floor_nonneg.mpr h

theorem truncQ_le_natCast {q : ℚ} {n : ℕ} (h0 : 0 ≤ q) (h : q ≤ (n : ℚ)) :
    truncQ q ≤ (n : ℤ) := by
  rw [truncQ_of_nonneg h0]
  calc ⌊q⌋ ≤ ⌊((n : ℚ))⌋ := Int.floor_mono h
    _ = (n : ℤ) := Int.floor_natCast n

theorem truncQ_eq_zero {q : ℚ} (h0 : 0 ≤ q) (h1 : q < 1) : truncQ q = 0 := by
  rw [truncQ_of_nonneg h0]
  exact Int.floor_eq_zero_iff.mpr ⟨h0, h1⟩

theorem lt_one_of_truncQ_eq_zero {q : ℚ} (h0 : 0 ≤ q) (h : truncQ q = 0) : q < 1 := by
  rw [truncQ_of_nonneg h0] at h
  exact (Int.floor_eq_zero_iff.mp h).2

theorem computeTargetDims_clamped (w h : ℕ) (s : ℚ)
    (hcond : (MAX_DIMENSION : ℤ) < truncQ ((w : ℚ) * s) ∨
      (MAX_DIMENSION : ℤ) < truncQ ((h : ℚ) * s)) :
    computeTargetDims w h s =
      ⟨truncQ ((w : ℚ) * (min (min ((MAX_DIMENSION : ℚ) / (w : ℚ)) ((MAX_DIMENSION : ℚ) / (h : ℚ))) s)),
       truncQ ((h : ℚ) * (min (min ((MAX_DIMENSION : ℚ) / (w : ℚ)) ((MAX_DIMENSION : ℚ) / (h : ℚ))) s)),
       min (min ((MAX_DIMENSION : ℚ) / (w : ℚ)) ((MAX_DIMENSION : ℚ) / (h : ℚ))) s⟩ := by
  simp only [computeTargetDims]
  rw [if_pos hcond]

theorem computeTargetDims_unclamped (w h : ℕ) (s : ℚ)
    (hcond : ¬ ((MAX_DIMENSION : ℤ) < truncQ ((w : ℚ) * s) ∨
      (MAX_DIMENSION : ℤ) < truncQ ((h : ℚ) * s))) :
    computeTargetDims w h s = ⟨truncQ ((w : ℚ) * s), truncQ ((h : ℚ) * s), s⟩ := by
  simp only [computeTargetDims]
  rw [if_neg hcond]

theorem computeTargetDims_spec (w h : ℕ) (s : ℚ) (hw : 0 < w) (hh : 0 < h) (hs : 0 < s) :
    (computeTargetDims w h s).newWidth ≤ (MAX_DIMENSION : ℤ) ∧
    (computeTargetDims w h s).newHeight ≤ (MAX_DIMENSION : ℤ) ∧
    0 ≤ (computeTargetDims w h s).newWidth ∧
    0 ≤ (computeTargetDims w h s).newHeight ∧
    0 < (computeTargetDims w h s).effectiveScale ∧
    (computeTargetDims w h s).newWidth =
      truncQ ((w : ℚ) * (computeTargetDims w h s).effectiveScale) ∧
    (computeTargetDims w h s).newHeight =
      truncQ ((h : ℚ) * (computeTargetDims w h s).effectiveScale) ∧
    (((MAX_DIMENSION : ℤ) < truncQ ((w : ℚ) * s) ∨
        (MAX_DIMENSION : ℤ) < truncQ ((h : ℚ) * s)) →
      (computeTargetDims w h s).effectiveScale =
        min (min ((MAX_DIMENSION : ℚ) / (w : ℚ)) ((MAX_DIMENSION : ℚ) / (h : ℚ))) s) ∧
    (¬ ((MAX_DIMENSION : ℤ) < truncQ ((w : ℚ) * s) ∨
        (MAX_DIMENSION : ℤ) < truncQ ((h : ℚ) * s)) →
      (computeTargetDims w h s).effectiveScale = s) := by
  have hw' : (0 : ℚ) < (w : ℚ) := by exact_mod_cast hw
  have hh' : (0 : ℚ) < (h : ℚ) := by exact_mod_cast hh
  by_cases hcond : (MAX_DIMENSION : ℤ) < truncQ ((w : ℚ) * s) ∨
      (MAX_DIMENSION : ℤ) < truncQ ((h : ℚ) * s)
  · have hFpos : 0 < min (min ((MAX_DIMENSION : ℚ) / (w : ℚ)) ((MAX_DIMENSION : ℚ) / (h : ℚ))) s :=
      lt_min (lt_min (div_pos (by norm_num [MAX_DIMENSION]) hw')
        (div_pos (by norm_num [MAX_DIMENSION]) hh')) hs
    have hwF : (w : ℚ) * (min (min ((MAX_DIMENSION : ℚ) / (w : ℚ)) ((MAX_DIMENSION : ℚ) / (h : ℚ))) s)
        ≤ (MAX_DIMENSION : ℚ) := by
      calc (w : ℚ) * (min (min ((MAX_DIMENSION : ℚ) / (w : ℚ)) ((MAX_DIMENSION : ℚ) / (h : ℚ))) s)
          ≤ (w : ℚ) * ((MAX_DIMENSION : ℚ) / (w : ℚ)) :=
            mul_le_mul_of_nonneg_left (le_trans (min_le_left _ _) (min_le_left _ _)) hw'.le
        _ = (MAX_DIMENSION : ℚ) := by field_simp
    have hhF : (h : ℚ) * (min (min ((MAX_DIMENSION : ℚ) / (w : ℚ)) ((MAX_DIMENSION : ℚ) / (h : ℚ))) s)
        ≤ (MAX_DIMENSION : ℚ) := by
      calc (h : ℚ) * (min (min ((MAX_DIMENSION : ℚ) / (w : ℚ)) ((MAX_DIMENSION : ℚ) / (h : ℚ))) s)
          ≤ (h : ℚ) * ((MAX_DIMENSION : ℚ) / (h : ℚ)) :=
            mul_le_mul_of_nonneg_left (le_trans (min_le_left _ _) (min_le_right _ _)) hh'.le
        _ = (MAX_DIMENSION : ℚ) := by field_simp
    have hw0 : (0 : ℚ) ≤ (w : ℚ) *
        (min (min ((MAX_DIMENSION : ℚ) / (w : ℚ)) ((MAX_DIMENSION : ℚ) / (h : ℚ))) s) :=
      mul_nonneg hw'.le hFpos.le
    have hh0 : (0 : ℚ) ≤ (h : ℚ) *
        (min (min ((MAX_DIMENSION : ℚ) / (w : ℚ)) ((MAX_DIMENSION : ℚ) / (h : ℚ))) s) :=
      mul_nonneg hh'.le hFpos.le
    rw [computeTargetDims_clamped w h s hcond]
    exact ⟨truncQ_le_natCast hw0 hwF, truncQ_le_natCast hh0 hhF,
      truncQ_nonneg hw0, truncQ_nonneg hh0, hFpos, rfl, rfl,
      fun _ => rfl, fun hc => absurd hcond hc⟩
  · have hnA : ¬ (MAX_DIMENSION : ℤ) < truncQ ((w : ℚ) * s) := fun hx => hcond (Or.inl hx)
    have hnB : ¬ (MAX_DIMENSION : ℤ) < truncQ ((h : ℚ) * s) := fun hx => hcond (Or.inr hx)
    have hw0 : (0 : ℚ) ≤ (w : ℚ) * s := mul_nonneg hw'.le hs.le
    have hh0 : (0 : ℚ) ≤ (h : ℚ) * s := mul_nonneg hh'.le hs.le
    rw [computeTargetDims_unclamped w h s hcond]
    exact ⟨not_lt.mp hnA, not_lt.mp hnB, truncQ_nonneg hw0, truncQ_nonneg hh0, hs, rfl, rfl,
      fun hc => absurd hc hcond, fun _ => rfl⟩

/-- C8: for every image and scale factor s in (0, 4.0] with origW*s <= 4000 and
origH*s <= 4000, no clamping occurs: the effective scale factor equals s
exactly and the output dimensions are floor(origW*s) x floor(origH*s). -/
theorem C8_no_unwanted_clamping (w h : ℕ) (s : ℚ) (hw : 0 < w) (hh : 0 < h)
    (hs : 0 < s) (hs4 : s ≤ 4)
    (hbw : (w : ℚ) * s ≤ (MAX_DIMENSION : ℚ)) (hbh : (h : ℚ) * s ≤ (MAX_DIMENSION : ℚ)) :
    computeTargetDims w h s = ⟨⌊(w : ℚ) * s⌋, ⌊(h : ℚ) * s⌋, s⟩ := by
  have hw' : (0 : ℚ) ≤ (w : ℚ) := by positivity
  have hh' : (0 : ℚ) ≤ (h : ℚ) := by positivity
  have hw0 : (0 : ℚ) ≤ (w : ℚ) * s := mul_nonneg hw' hs.le
  have hh0 : (0 : ℚ) ≤ (h : ℚ) * s := mul_nonneg hh' hs.le
  have hA : truncQ ((w : ℚ) * s) ≤ (MAX_DIMENSION : ℤ) := truncQ_le_natCast hw0 hbw
  have hB : truncQ ((h : ℚ) * s) ≤ (MAX_DIMENSION : ℤ) := truncQ_le_natCast hh0 hbh
  have hcond : ¬ ((MAX_DIMENSION : ℤ) < truncQ ((w : ℚ) * s) ∨
      (MAX_DIMENSION : ℤ) < truncQ ((h : ℚ) * s)) := by
    push_neg
    exact ⟨hA, hB⟩
  rw [computeTargetDims_unclamped w h s hcond, truncQ_of_nonneg hw0, truncQ_of_nonneg hh0]

/-- Witness for C8 at a 100 by 100 image with scale factor 2: the dimension
computation yields effective scale 2 with the floor dimensions. -/
theorem C8_no_unwanted_clamping_witness :
    (0 : ℚ) < 2 ∧ computeTargetDims 100 100 2 = ⟨⌊((100 : ℕ) : ℚ) * 2⌋, ⌊((100 : ℕ) : ℚ) * 2⌋, 2⟩ :=
  ⟨by norm_num, C8_no_unwanted_clamping 100 100 2 (by norm_num) (by norm_num) (by norm_num)
    (by norm_num) (by norm_num [MAX_DIMENSION]) (by norm_num [MAX_DIMENSION])⟩

theorem normalizeMode_width (img : PILImage) : (normalizeMode img).width = img.width := by
  unfold normalizeMode
  split
  · rfl
  · split
    · rfl
    · rfl

theorem normalizeMode_height (img : PILImage) : (normalizeMode img).height = img.height := by
  unfold normalizeMode
  split
  · rfl
  · split
    · rfl
    · rfl

theorem processImageBody_image (raw : PILImage) (s : ℚ) :
    processImageBody (.image raw) s =
      match resizeImage (normalizeMode raw)
          (computeTargetDims (normalizeMode raw).width (normalizeMode raw).height s).newWidth
          (computeTargetDims (normalizeMode raw).width (normalizeMode raw).height s).newHeight with
      | .error e => .error e
      | .ok upscaled =>
        match jpegEncode (unsharpMask upscaled) with
        | .error e => .error e
        | .ok outputBytes =>
          .ok (outputBytes, buildMetadata (normalizeMode raw).width (normalizeMode raw).height
            (computeTargetDims (normalizeMode raw).width (normalizeMode raw).height s)
            outputBytes.length) := rfl

theorem process_image_ok_inv {raw : PILImage} {s : ℚ} {out : List ℕ} {md : MetadataM}
    (hok : process_image (.image raw) s = .ok (out, md)) :
    md = buildMetadata (normalizeMode raw).width (normalizeMode raw).height
        (computeTargetDims (normalizeMode raw).width (normalizeMode raw).height s)
        out.length := by
  unfold process_image at hok
  rw [processImageBody_image raw s] at hok
  cases hres : resizeImage (normalizeMode raw)
      (computeTargetDims (normalizeMode raw).width (normalizeMode raw).height s).newWidth
      (computeTargetDims (normalizeMode raw).width (normalizeMode raw).height s).newHeight with
  | error e => simp [hres] at hok
  | ok upscaled =>
    cases henc : jpegEncode (unsharpMask upscaled) with
    | error e => simp [hres, henc] at hok
    | ok outputBytes =>
      simp only [hres, henc, Except.ok.injEq, Prod.mk.injEq] at hok
      obtain ⟨hout, hmd⟩ := hok
      rw [← hmd, ← hout]

theorem resizeImage_ok (img : PILImage) (w h : ℤ) (hw : 0 ≤ w) (hh : 0 ≤ h) :
    resizeImage img w h =
      .ok ⟨img.mode, w.toNat, h.toNat, resampleGrid img w.toNat h.toNat, img.palette⟩ := by
  have hcond : ¬ (w < 0 ∨ h < 0) := by
    push_neg
    exact ⟨hw, hh⟩
  unfold resizeImage
  rw [if_neg hcond]

theorem jpegEncode_ok (img : PILImage) (hw : img.width ≠ 0) (hh : img.height ≠ 0)
    (hmode : img.mode = "RGB" ∨ img.mode = "L") :
    jpegEncode img = .ok (jpegBits img) := by
  have hdim : ¬ (img.width = 0 ∨ img.height = 0) := by
    push_neg
    exact ⟨hw, hh⟩
  unfold jpegEncode
  rw [if_neg hdim, if_neg (not_not_intro hmode)]

theorem process_image_eval (raw : PILImage) (s : ℚ) (d : ScaledDims)
    (hd : computeTargetDims (normalizeMode raw).width (normalizeMode raw).height s = d)
    (hw : 0 ≤ d.newWidth) (hh : 0 ≤ d.newHeight)
    (hw0 : d.newWidth.toNat ≠ 0) (hh0 : d.newHeight.toNat ≠ 0)
    (hmode : (normalizeMode raw).mode = "RGB" ∨ (normalizeMode raw).mode = "L") :
    process_image (.image raw) s =
      .ok (jpegBits ⟨(normalizeMode raw).mode, d.newWidth.toNat, d.newHeight.toNat,
            resampleGrid (normalizeMode raw) d.newWidth.toNat d.newHeight.toNat,
            (normalizeMode raw).palette⟩,
          buildMetadata (normalizeMode raw).width (normalizeMode raw).height d
            (jpegBits ⟨(normalizeMode raw).mode, d.newWidth.toNat, d.newHeight.toNat,
              resampleGrid (normalizeMode raw) d.newWidth.toNat d.newHeight.toNat,
              (normalizeMode raw).palette⟩).length) := by
  have hres := resizeImage_ok (normalizeMode raw) d.newWidth d.newHeight hw hh
  have henc := jpegEncode_ok ⟨(normalizeMode raw).mode, d.newWidth.toNat, d.newHeight.toNat,
      resampleGrid (normalizeMode raw) d.newWidth.toNat d.newHeight.toNat,
      (normalizeMode raw).palette⟩ hw0 hh0 hmode
  unfold process_image
  rw [processImageBody_image raw s, hd, hres]
  simp only [unsharpMask] at henc ⊢
  rw [henc]

/-- C1: for every decodable image and accepted scale factor s, process_image
computes newW = floor(origW * s) and newH = floor(origH * s); if either
exceeds 4000 it recomputes an effective factor
s' = min(4000/origW, 4000/origH, s) and recomputes both dimensions from s',
so the processed width and height never exceed 4000, and the metadata's
scale_factor field always equals the factor actually used for the resize
(s' when clamped, s otherwise). -/
theorem C1_dimension_clamp_and_effective_scale (raw : PILImage) (s : ℚ) (out : List ℕ)
    (md : MetadataM) (hw : 0 < raw.width) (hh : 0 < raw.height) (hs : 0 < s)
    (hok : process_image (.image raw) s = .ok (out, md)) :
    md.processed_size.width ≤ (MAX_DIMENSION : ℤ) ∧
    md.processed_size.height ≤ (MAX_DIMENSION : ℤ) ∧
    md.original_size = ⟨(raw.width : ℤ), (raw.height : ℤ)⟩ ∧
    md.processed_size.width = truncQ ((raw.width : ℚ) * md.scale_factor) ∧
    md.processed_size.height = truncQ ((raw.height : ℚ) * md.scale_factor) ∧
    (((MAX_DIMENSION : ℤ) < truncQ ((raw.width : ℚ) * s) ∨
        (MAX_DIMENSION : ℤ) < truncQ ((raw.height : ℚ) * s)) →
      md.scale_factor =
        min (min ((MAX_DIMENSION : ℚ) / (raw.width : ℚ)) ((MAX_DIMENSION : ℚ) / (raw.height : ℚ))) s) ∧
    (¬ ((MAX_DIMENSION : ℤ) < truncQ ((raw.width : ℚ) * s) ∨
        (MAX_DIMENSION : ℤ) < truncQ ((raw.height : ℚ) * s)) →
      md.scale_factor = s) := by
  have hmd := process_image_ok_inv hok
  rw [normalizeMode_width, normalizeMode_height] at hmd
  obtain ⟨h1, h2, h3, h4, h5, h6, h7, h8, h9⟩ :=
    computeTargetDims_spec raw.width raw.height s hw hh hs
  subst hmd
  exact ⟨h1, h2, rfl, h6, h7, h8, h9⟩




theorem truncQ_one_mul_two : truncQ (((1 : ℕ) : ℚ) * 2) = 2 := by
  have harg : ((1 : ℕ) : ℚ) * 2 = ((2 : ℕ) : ℚ) := by norm_num
  rw [harg, truncQ_of_nonneg (by positivity), Int.floor_natCast]
  norm_num

theorem computeTargetDims_one_one_two : computeTargetDims 1 1 2 = ⟨2, 2, 2⟩ := by
  have hcond : ¬ ((MAX_DIMENSION : ℤ) < truncQ (((1 : ℕ) : ℚ) * 2) ∨
      (MAX_DIMENSION : ℤ) < truncQ (((1 : ℕ) : ℚ) * 2)) := by
    rw [truncQ_one_mul_two]
    norm_num [MAX_DIMENSION]
  rw [computeTargetDims_unclamped 1 1 2 hcond, truncQ_one_mul_two]

theorem process_image_imgW : process_image (.image imgW) 2 = .ok (outW, mdW) := by
  have hnw : (normalizeMode imgW).width = 1 := by decide
  have hnh : (normalizeMode imgW).height = 1 := by decide
  have hd : computeTargetDims (normalizeMode imgW).width (normalizeMode imgW).height 2
      = ⟨2, 2, 2⟩ := by
    rw [hnw, hnh]
    exact computeTargetDims_one_one_two
  have heval := process_image_eval imgW 2 ⟨2, 2, 2⟩ hd (by decide) (by decide)
    (by decide) (by decide) (Or.inl (by decide))
  exact heval.trans (by rfl)

/-- Witness for C1: processing the concrete one-pixel image at scale factor 2
succeeds with the stated metadata, and the theorem's bounds hold for it. -/
theorem C1_dimension_clamp_witness :
    0 < imgW.width ∧ 0 < imgW.height ∧ (0 : ℚ) < 2 ∧
    process_image (.image imgW) 2 = .ok (outW, mdW) ∧
    mdW.processed_size.width ≤ (MAX_DIMENSION : ℤ) ∧
    mdW.processed_size.height ≤ (MAX_DIMENSION : ℤ) := by
  refine ⟨by decide, by decide, by norm_num, process_image_imgW, ?_, ?_⟩
  · exact (C1_dimension_clamp_and_effective_scale imgW 2 outW mdW (by decide) (by decide)
      (by norm_num) process_image_imgW).1
  · exact (C1_dimension_clamp_and_effective_scale imgW 2 outW mdW (by decide) (by decide)
      (by norm_num) process_image_imgW).2.1

/-- C4: the three checks of validate_image_file run in order (declared size,
then filename extension, then MIME type), short-circuiting on the first
failure — but a file whose declared size is unknown (size None) is NOT
accepted: evaluating `None > MAX_FILE_SIZE` raises TypeError, so the except
handler rejects the file with "File validation failed" instead of letting it
proceed to the extension and MIME checks.  The first conjunct evaluates the
code at that failing input; the remaining conjuncts exhibit the in-order
short-circuiting for known sizes. -/
theorem C4_validate_order_and_none_size :
    validate_image_file ⟨some "photo.png", none, some "image/png"⟩ =
      (false, "File validation failed") ∧
    validate_image_file ⟨some "photo.gif", some (20 * 1024 * 1024), some "text/plain"⟩ =
      (false, sizeExceededMessage) ∧
    validate_image_file ⟨some "photo.gif", some 100, some "text/plain"⟩ =
      (false, unsupportedFormatMessage) ∧
    validate_image_file ⟨some "photo.png", some 100, some "text/plain"⟩ =
      (false, invalidContentTypeMessage) ∧
    validate_image_file ⟨some "photo.png", some 100, some "image/png"⟩ = (true, "") ∧
    validate_image_file ⟨none, some 100, some "image/png"⟩ = (true, "") := by
  refine ⟨by decide, by decide, by decide, by decide, by decide, by decide⟩



/-- Counterexample for C2: NaN is a non-finite scale factor, yet the endpoint
check `scale_factor <= 0 or scale_factor > 4.0` evaluates to false on it
(IEEE comparisons with NaN are false), so the request with NaN is NOT
rejected with 400 — it proceeds and only fails inside processing with 422. -/
theorem C2_nan_escapes_rejection :
    scaleFactorRejected PyFloat.nan = false ∧
    (upscale_image nanRequest).status_code = 422 ∧
    ¬ (upscale_image nanRequest).status_code = 400 := by
  exact ⟨rfl, by decide, by decide⟩

/-- C2 (amended): the endpoint-layer check rejects with 400, before any file
validation or processing, exactly the scale factors that compare less-equal
zero or greater than 4.0 under IEEE semantics — all finite values outside
(0, 4.0] and both infinities — while NaN compares false on both tests and is
not rejected by the check. -/
theorem C2_scale_factor_domain_check (s : PyFloat) (req : UpscaleRequest) :
    (scaleFactorRejected s = true ↔
      (s = .posinf ∨ s = .neginf ∨ ∃ q : ℚ, s = .finite q ∧ (q ≤ 0 ∨ 4 < q))) ∧
    (scaleFactorRejected req.scale_factor = true →
      upscale_image req = renderHTTPException ⟨400, "Scale factor must be between 0.1 and 4.0"⟩) := by
  constructor
  · cases s with
    | finite q => simp [scaleFactorRejected, pyLe, pyLt]
    | posinf => simp [scaleFactorRejected, pyLe, pyLt]
    | neginf => simp [scaleFactorRejected, pyLe, pyLt]
    | nan => simp [scaleFactorRejected, pyLe, pyLt]
  · intro hrej
    unfold upscale_image
    rw [if_pos hrej]

/-- Witness for C2 (amended): scale factor 5.0 is rejected with the 400
response before the (valid) file is even considered. -/
theorem C2_scale_factor_domain_check_witness :
    scaleFactorRejected (PyFloat.finite 5) = true ∧
    upscale_image ⟨fileW, [1, 2, 3], .image imgW, .finite 5⟩ =
      renderHTTPException ⟨400, "Scale factor must be between 0.1 and 4.0"⟩ := by
  have h5 : scaleFactorRejected (PyFloat.finite 5) = true := by
    norm_num [scaleFactorRejected, pyLe, pyLt]
  exact ⟨h5, (C2_scale_factor_domain_check (.finite 5)
    ⟨fileW, [1, 2, 3], .image imgW, .finite 5⟩).2 h5⟩

theorem getHeader_map_set_self (k v : String) (hs : List (String × String))
    (hany : hs.any (fun p => decide (p.1 = k)) = true) :
    getHeader (hs.map (fun p => if p.1 = k then (k, v) else p)) k = some v := by
  induction hs with
  | nil => simp at hany
  | cons p rest ih =>
    simp only [List.map_cons]
    by_cases hp : p.1 = k
    · rw [if_pos hp]
      simp [getHeader]
    · rw [if_neg hp]
      simp only [getHeader]
      rw [if_neg hp]
      apply ih
      simp only [List.any_cons, Bool.or_eq_true, decide_eq_true_eq] at hany
      rcases hany with h | h
      · exact absurd h hp
      · exact h

theorem getHeader_append_one_self (k v : String) (hs : List (String × String))
    (hnone : hs.any (fun p => decide (p.1 = k)) = false) :
    getHeader (hs ++ [(k, v)]) k = some v := by
  induction hs with
  | nil => simp [getHeader]
  | cons p rest ih =>
    simp only [List.any_cons, Bool.or_eq_false_iff, decide_eq_false_iff_not] at hnone
    obtain ⟨h1, h2⟩ := hnone
    simp [getHeader, h1, ih h2]

theorem getHeader_map_set_other (k v k' : String) (hne : k' ≠ k) (hs : List (String × String)) :
    getHeader (hs.map (fun p => if p.1 = k then (k, v) else p)) k' = getHeader hs k' := by
  induction hs with
  | nil => rfl
  | cons p rest ih =>
    simp only [List.map_cons, getHeader]
    by_cases hp : p.1 = k
    · rw [if_pos hp]
      simp [getHeader, hp, Ne.symm hne, ih]
    · rw [if_neg hp]
      by_cases hp' : p.1 = k'
      · simp [getHeader, hp', ih]
      · simp [getHeader, hp', ih]

theorem getHeader_append_one_other (k v k' : String) (hne : k' ≠ k) (hs : List (String × String)) :
    getHeader (hs ++ [(k, v)]) k' = getHeader hs k' := by
  induction hs with
  | nil => simp [getHeader, Ne.symm hne]
  | cons p rest ih =>
    by_cases hp' : p.1 = k'
    · simp [getHeader, hp', ih]
    · simp [getHeader, hp', ih]

theorem getHeader_setHeader_self (hs : List (String × String)) (k v : String) :
    getHeader (setHeader hs k v) k = some v := by
  unfold setHeader
  split
  next hany => exact getHeader_map_set_self k v hs hany
  next hany =>
    simp only [Bool.not_eq_true] at hany
    exact getHeader_append_one_self k v hs hany

theorem getHeader_setHeader_other (hs : List (String × String)) (k v k' : String) (hne : k' ≠ k) :
    getHeader (setHeader hs k v) k' = getHeader hs k' := by
  unfold setHeader
  split
  · exact getHeader_map_set_other k v k' hne hs
  · exact getHeader_append_one_other k v k' hne hs

theorem applySecurityHeaders_headers (r : ResponseM) :
    (applySecurityHeaders r).headers =
      setHeader
        (setHeader
          (setHeader
            (setHeader
              (setHeader r.headers "X-Content-Type-Options" "nosniff")
              "X-Frame-Options" "DENY")
            "X-XSS-Protection" "1; mode=block")
          "Strict-Transport-Security" "max-age=31536000; includeSubDomains")
        "Referrer-Policy" "strict-origin-when-cross-origin" := rfl

theorem applySecurityHeaders_carries_all (r : ResponseM) :
    getHeader (applySecurityHeaders r).headers "X-Content-Type-Options" = some "nosniff" ∧
    getHeader (applySecurityHeaders r).headers "X-Frame-Options" = some "DENY" ∧
    getHeader (applySecurityHeaders r).headers "X-XSS-Protection" = some "1; mode=block" ∧
    getHeader (applySecurityHeaders r).headers "Strict-Transport-Security" =
      some "max-age=31536000; includeSubDomains" ∧
    getHeader (applySecurityHeaders r).headers "Referrer-Policy" =
      some "strict-origin-when-cross-origin" := by
  rw [applySecurityHeaders_headers]
  refine ⟨?_, ?_, ?_, ?_, ?_⟩
  · rw [getHeader_setHeader_other _ _ _ _ (by decide), getHeader_setHeader_other _ _ _ _ (by decide),
      getHeader_setHeader_other _ _ _ _ (by decide), getHeader_setHeader_other _ _ _ _ (by decide)]
    exact getHeader_setHeader_self _ _ _
  · rw [getHeader_setHeader_other _ _ _ _ (by decide), getHeader_setHeader_other _ _ _ _ (by decide),
      getHeader_setHeader_other _ _ _ _ (by decide)]
    exact getHeader_setHeader_self _ _ _
  · rw [getHeader_setHeader_other _ _ _ _ (by decide), getHeader_setHeader_other _ _ _ _ (by decide)]
    exact getHeader_setHeader_self _ _ _
  · rw [getHeader_setHeader_other _ _ _ _ (by decide)]
    exact getHeader_setHeader_self _ _ _
  · exact getHeader_setHeader_self _ _ _

theorem lookupCounts_setCounts_self (st : RateState) (ip : String) (l : List ℚ) :
    lookupCounts (setCounts st ip l) ip = l := by
  simp [lookupCounts, setCounts, List.lookup]

theorem fullState_kept : pruneTimestamps 0 (lookupCounts fullState "9.9.9.9") = tenStamps := by
  have hlk : lookupCounts fullState "9.9.9.9" = tenStamps := by
    simp [lookupCounts, fullState, List.lookup]
  rw [hlk]
  norm_num [pruneTimestamps, tenStamps, RATE_LIMIT_WINDOW, List.filter]

theorem add_security_headers_rejected (st : RateState) (ip : String) (now : ℚ)
    (inner : ResponseM)
    (hge : RATE_LIMIT_REQUESTS ≤ (pruneTimestamps now (lookupCounts st ip)).length) :
    add_security_headers st ip now inner =
      (rateLimitResponse, setCounts st ip (pruneTimestamps now (lookupCounts st ip))) := by
  simp only [add_security_headers]
  rw [if_pos hge]

theorem add_security_headers_admitted (st : RateState) (ip : String) (now : ℚ)
    (inner : ResponseM)
    (hlt : (pruneTimestamps now (lookupCounts st ip)).length < RATE_LIMIT_REQUESTS) :
    add_security_headers st ip now inner =
      (applySecurityHeaders inner,
        setCounts (setCounts st ip (pruneTimestamps now (lookupCounts st ip))) ip
          (pruneTimestamps now (lookupCounts st ip) ++ [now])) := by
  simp only [add_security_headers]
  rw [if_neg (not_le.mpr hlt)]

/-- Counterexample for C3: a client with ten timestamps inside the window gets
the 429 rate-limit rejection, and that response carries an empty header list —
in particular none of the five security headers — because the middleware
returns it before the header-assignment lines run. -/
theorem C3_rate_limited_response_lacks_headers :
    (add_security_headers fullState "9.9.9.9" 0 innerResponse).1.status_code = 429 ∧
    (add_security_headers fullState "9.9.9.9" 0 innerResponse).1.headers = [] ∧
    getHeader (add_security_headers fullState "9.9.9.9" 0 innerResponse).1.headers
      "X-Content-Type-Options" = none := by
  have hge : RATE_LIMIT_REQUESTS ≤ (pruneTimestamps 0 (lookupCounts fullState "9.9.9.9")).length := by
    rw [fullState_kept]
    decide
  rw [add_security_headers_rejected fullState "9.9.9.9" 0 innerResponse hge]
  exact ⟨rfl, rfl, rfl⟩

/-- C3 (amended): every response that passes the rate-limit gate carries all
five security headers, but the 429 rate-limit rejection is returned before the
header assignments and carries no headers at all. -/
theorem C3_security_headers_except_429 (st : RateState) (ip : String) (now : ℚ)
    (inner : ResponseM) :
    ((pruneTimestamps now (lookupCounts st ip)).length < RATE_LIMIT_REQUESTS →
      getHeader (add_security_headers st ip now inner).1.headers "X-Content-Type-Options" =
        some "nosniff" ∧
      getHeader (add_security_headers st ip now inner).1.headers "X-Frame-Options" =
        some "DENY" ∧
      getHeader (add_security_headers st ip now inner).1.headers "X-XSS-Protection" =
        some "1; mode=block" ∧
      getHeader (add_security_headers st ip now inner).1.headers "Strict-Transport-Security" =
        some "max-age=31536000; includeSubDomains" ∧
      getHeader (add_security_headers st ip now inner).1.headers "Referrer-Policy" =
        some "strict-origin-when-cross-origin" ∧
      (add_security_headers st ip now inner).1.status_code = inner.status_code) ∧
    (RATE_LIMIT_REQUESTS ≤ (pruneTimestamps now (lookupCounts st ip)).length →
      (add_security_headers st ip now inner).1 = rateLimitResponse ∧
      (add_security_headers st ip now inner).1.headers = []) := by
  constructor
  · intro hlt
    rw [add_security_headers_admitted st ip now inner hlt]
    obtain ⟨h1, h2, h3, h4, h5⟩ := applySecurityHeaders_carries_all inner
    exact ⟨h1, h2, h3, h4, h5, rfl⟩
  · intro hge
    rw [add_security_headers_rejected st ip now inner hge]
    exact ⟨rfl, rfl⟩

/-- Witness for C3 (amended): with an empty rate state the request is admitted
and the response carries the security headers. -/
theorem C3_security_headers_except_429_witness :
    (pruneTimestamps 0 (lookupCounts ([] : RateState) "9.9.9.9")).length < RATE_LIMIT_REQUESTS ∧
    getHeader (add_security_headers ([] : RateState) "9.9.9.9" 0 innerResponse).1.headers
      "X-Content-Type-Options" = some "nosniff" ∧
    getHeader (add_security_headers ([] : RateState) "9.9.9.9" 0 innerResponse).1.headers
      "Referrer-Policy" = some "strict-origin-when-cross-origin" := by
  have hlt : (pruneTimestamps 0 (lookupCounts ([] : RateState) "9.9.9.9")).length
      < RATE_LIMIT_REQUESTS := by decide
  obtain ⟨h1, h2, h3, h4, h5, hst⟩ :=
    (C3_security_headers_except_429 [] "9.9.9.9" 0 innerResponse).1 hlt
  exact ⟨hlt, h1, h5⟩

/-- C5: on each request the rate limiter prunes the client's timestamps older
than the 60-second window, rejects with the bare 429 response without
recording when at least 10 remain, and otherwise admits the request and
appends the current timestamp; consequently an 11th request while all 10
recorded timestamps are inside the window is rejected with 429, and a request
arriving after the window has fully elapsed is admitted with exactly the new
timestamp recorded. -/
theorem C5_sliding_window_rate_limiter (st : RateState) (ip : String) (now : ℚ)
    (inner : ResponseM) :
    (RATE_LIMIT_REQUESTS ≤ (pruneTimestamps now (lookupCounts st ip)).length →
      (add_security_headers st ip now inner).1 = rateLimitResponse ∧
      (add_security_headers st ip now inner).1.status_code = 429 ∧
      lookupCounts (add_security_headers st ip now inner).2 ip =
        pruneTimestamps now (lookupCounts st ip)) ∧
    ((pruneTimestamps now (lookupCounts st ip)).length < RATE_LIMIT_REQUESTS →
      (add_security_headers st ip now inner).1 = applySecurityHeaders inner ∧
      lookupCounts (add_security_headers st ip now inner).2 ip =
        pruneTimestamps now (lookupCounts st ip) ++ [now]) ∧
    ((lookupCounts st ip).length = RATE_LIMIT_REQUESTS →
      (∀ t ∈ lookupCounts st ip, now - t < RATE_LIMIT_WINDOW) →
      (add_security_headers st ip now inner).1.status_code = 429) ∧
    ((∀ t ∈ lookupCounts st ip, RATE_LIMIT_WINDOW ≤ now - t) →
      (add_security_headers st ip now inner).1 = applySecurityHeaders inner ∧
      lookupCounts (add_security_headers st ip now inner).2 ip = [now]) := by
  refine ⟨?_, ?_, ?_, ?_⟩
  · intro hge
    rw [add_security_headers_rejected st ip now inner hge]
    exact ⟨rfl, rfl, lookupCounts_setCounts_self _ _ _⟩
  · intro hlt
    rw [add_security_headers_admitted st ip now inner hlt]
    exact ⟨rfl, lookupCounts_setCounts_self _ _ _⟩
  · intro hlen hall
    have hkeep : pruneTimestamps now (lookupCounts st ip) = lookupCounts st ip := by
      unfold pruneTimestamps
      exact List.filter_eq_self.mpr fun a ha => decide_eq_true (hall a ha)
    have hge : RATE_LIMIT_REQUESTS ≤ (pruneTimestamps now (lookupCounts st ip)).length := by
      rw [hkeep, hlen]
    rw [add_security_headers_rejected st ip now inner hge]
    rfl
  · intro hall
    have hkeep : pruneTimestamps now (lookupCounts st ip) = [] := by
      unfold pruneTimestamps
      rw [List.filter_eq_nil_iff]
      intro a ha
      simp only [decide_eq_true_eq]
      exact not_lt.mpr (hall a ha)
    have hlt : (pruneTimestamps now (lookupCounts st ip)).length < RATE_LIMIT_REQUESTS := by
      rw [hkeep]
      decide
    rw [add_security_headers_admitted st ip now inner hlt]
    refine ⟨rfl, ?_⟩
    rw [lookupCounts_setCounts_self, hkeep]
    rfl

/-- Witness for C5: the client with ten in-window timestamps is rejected with
429 and nothing new is recorded for it. -/
theorem C5_sliding_window_rate_limiter_witness :
    RATE_LIMIT_REQUESTS ≤ (pruneTimestamps 0 (lookupCounts fullState "9.9.9.9")).length ∧
    (add_security_headers fullState "9.9.9.9" 0 innerResponse).1.status_code = 429 ∧
    lookupCounts (add_security_headers fullState "9.9.9.9" 0 innerResponse).2 "9.9.9.9" =
      pruneTimestamps 0 (lookupCounts fullState "9.9.9.9") := by
  have hge : RATE_LIMIT_REQUESTS ≤ (pruneTimestamps 0 (lookupCounts fullState "9.9.9.9")).length := by
    rw [fullState_kept]
    decide
  obtain ⟨h1, h2, h3⟩ :=
    (C5_sliding_window_rate_limiter fullState "9.9.9.9" 0 innerResponse).1 hge
  exact ⟨hge, h2, h3⟩

theorem transformOutcome_error_shape (req : UpscaleRequest) (e : HTTPExceptionM)
    (hfail : transformOutcome req = .error e) :
    e.status_code = 422 ∧ e.detail = "Image processing failed: " ++ transformCause req := by
  cases hs : req.scale_factor with
  | finite q =>
    simp only [transformOutcome, hs] at hfail
    unfold process_image at hfail
    cases hb : processImageBody req.decoded q with
    | ok r => rw [hb] at hfail; simp at hfail
    | error m =>
      rw [hb] at hfail
      simp only [Except.error.injEq] at hfail
      subst hfail
      exact ⟨rfl, by simp [transformCause, hs, hb]⟩
  | nan =>
    simp only [transformOutcome, hs] at hfail
    cases hd : req.decoded with
    | failure msg =>
      rw [hd] at hfail
      simp only [Except.error.injEq] at hfail
      subst hfail
      exact ⟨rfl, by simp [transformCause, hs, hd]⟩
    | image img =>
      rw [hd] at hfail
      simp only [Except.error.injEq] at hfail
      subst hfail
      exact ⟨rfl, by simp [transformCause, hs, hd]⟩
  | posinf =>
    simp only [transformOutcome, hs] at hfail
    cases hd : req.decoded with
    | failure msg =>
      rw [hd] at hfail
      simp only [Except.error.injEq] at hfail
      subst hfail
      exact ⟨rfl, by simp [transformCause, hs, hd]⟩
    | image img =>
      rw [hd] at hfail
      simp only [Except.error.injEq] at hfail
      subst hfail
      exact ⟨rfl, by simp [transformCause, hs, hd]⟩
  | neginf =>
    simp only [transformOutcome, hs] at hfail
    cases hd : req.decoded with
    | failure msg =>
      rw [hd] at hfail
      simp only [Except.error.injEq] at hfail
      subst hfail
      exact ⟨rfl, by simp [transformCause, hs, hd]⟩
    | image img =>
      rw [hd] at hfail
      simp only [Except.error.injEq] at hfail
      subst hfail
      exact ⟨rfl, by simp [transformCause, hs, hd]⟩

theorem renderHTTPException_422 (e : HTTPExceptionM) (he : e.status_code = 422) :
    renderHTTPException e =
      ⟨422, [], none, none, some "Validation error occurred", some "VALIDATION_ERROR"⟩ := by
  unfold renderHTTPException
  rw [he, if_neg (by norm_num), if_pos rfl]

/-- C6: for every request that passes the scale check, file validation and the
size check but whose transform fails (corrupt decode, resize, filter or encode
failure, or a non-finite factor reaching the arithmetic), the response is the
422 processing-failure JSON — the raised exception carries the
human-readable cause with status 422, the final status is 422 and never 500,
and no image body or success header is present. -/
theorem C6_transform_failures_return_422 (req : UpscaleRequest) (e : HTTPExceptionM)
    (hscale : scaleFactorRejected req.scale_factor = false)
    (hvalid : validate_image_file req.file = (true, ""))
    (hsize : ¬ MAX_FILE_SIZE < req.file_content.length)
    (hfail : transformOutcome req = .error e) :
    e.status_code = 422 ∧
    e.detail = "Image processing failed: " ++ transformCause req ∧
    upscale_image req = renderHTTPException e ∧
    (upscale_image req).status_code = 422 ∧
    (upscale_image req).status_code ≠ 500 ∧
    (upscale_image req).body_bytes = none ∧
    getHeader (upscale_image req).headers "X-Processing-Status" = none ∧
    (upscale_image req).error_code = some "VALIDATION_ERROR" := by
  obtain ⟨he422, hdet⟩ := transformOutcome_error_shape req e hfail
  have hup : upscale_image req = renderHTTPException e := by
    simp [upscale_image, hscale, hvalid, hsize, hfail]
  have hr := renderHTTPException_422 e he422
  refine ⟨he422, hdet, hup, ?_, ?_, ?_, ?_, ?_⟩
  · rw [hup, hr]
  · rw [hup, hr]
    norm_num
  · rw [hup, hr]
  · rw [hup, hr]
    rfl
  · rw [hup, hr]

/-- Witness for C6: corrupt bytes with valid metadata and scale factor 2
produce the 422 processing-failure response. -/
theorem C6_transform_failures_return_422_witness :
    scaleFactorRejected corruptRequest.scale_factor = false ∧
    validate_image_file corruptRequest.file = (true, "") ∧
    ¬ MAX_FILE_SIZE < corruptRequest.file_content.length ∧
    transformOutcome corruptRequest =
      .error ⟨422, "Image processing failed: cannot identify image file"⟩ ∧
    (upscale_image corruptRequest).status_code = 422 ∧
    (upscale_image corruptRequest).error_code = some "VALIDATION_ERROR" := by
  have hscale : scaleFactorRejected corruptRequest.scale_factor = false := by
    norm_num [corruptRequest, scaleFactorRejected, pyLe, pyLt]
  have hfail : transformOutcome corruptRequest =
      .error ⟨422, "Image processing failed: cannot identify image file"⟩ := rfl
  refine ⟨hscale, by decide, by decide, hfail, ?_, ?_⟩
  · exact (C6_transform_failures_return_422 corruptRequest _ hscale (by decide) (by decide)
      hfail).2.2.2.1
  · exact (C6_transform_failures_return_422 corruptRequest _ hscale (by decide) (by decide)
      hfail).2.2.2.2.2.2.2

theorem muldiv255_self (c : ℕ) (hc : c ≤ 255) : muldiv255 c 255 = c := by
  simp only [muldiv255]
  omega

theorem muldiv255_zero (c : ℕ) : muldiv255 c 0 = 0 := by
  simp only [muldiv255]
  omega

theorem blendChannel_transparent (c : ℕ) : blendChannel 255 c 0 = 255 := by
  unfold blendChannel
  rw [muldiv255_zero]
  decide

theorem blendChannel_alpha255 (c : ℕ) (hc : c ≤ 255) : blendChannel 255 c 255 = c := by
  unfold blendChannel
  rw [muldiv255_self c hc, show (255 - 255 : ℕ) = 0 from rfl, muldiv255_zero]
  omega

theorem map_blendChannel_alpha255 (l : List ℕ) (hl : ∀ c ∈ l, c ≤ 255) :
    l.map (fun c => blendChannel 255 c 255) = l := by
  induction l with
  | nil => rfl
  | cons c rest ih =>
    simp only [List.map_cons]
    rw [blendChannel_alpha255 c (hl c (by simp)), ih (fun c' hc' => hl c' (by simp [hc']))]

/-- C7: the color normalization of process_image composites every image with
an alpha channel (RGBA or grayscale+alpha LA) onto an opaque white background
of identical dimensions using the alpha channel as the mask, dropping the
alpha and yielding an RGB bitmap; RGB and grayscale images pass through
unchanged; every other mode is converted to RGB.  A fully transparent pixel
becomes white and a fully opaque pixel keeps its source channels. -/
theorem C7_color_normalization (img : PILImage) :
    (img.mode = "RGBA" ∨ img.mode = "LA" →
      normalizeMode img = compositeOntoWhite img ∧
      (normalizeMode img).mode = "RGB" ∧
      (normalizeMode img).width = img.width ∧
      (normalizeMode img).height = img.height ∧
      (normalizeMode img).pixels =
        img.pixels.map (fun row => row.map (compositePixel img.mode))) ∧
    (img.mode = "RGB" ∨ img.mode = "L" → normalizeMode img = img) ∧
    (¬ (img.mode = "RGBA" ∨ img.mode = "LA") → ¬ (img.mode = "RGB" ∨ img.mode = "L") →
      normalizeMode img = convertToRGB img ∧ (normalizeMode img).mode = "RGB") ∧
    (∀ px : List ℕ, pixelAlpha img.mode px = 0 →
      compositePixel img.mode px = [255, 255, 255]) ∧
    (∀ px : List ℕ, pixelAlpha img.mode px = 255 →
      (∀ c ∈ pasteSourceRGB img.mode px, c ≤ 255) →
      compositePixel img.mode px = pasteSourceRGB img.mode px) := by
  refine ⟨?_, ?_, ?_, ?_, ?_⟩
  · intro halpha
    have hn : normalizeMode img = compositeOntoWhite img := by
      unfold normalizeMode
      rw [if_pos halpha]
    refine ⟨hn, by rw [hn]; rfl, by rw [hn]; rfl, by rw [hn]; rfl, by rw [hn]; rfl⟩
  · intro hpass
    have hne : ¬ (img.mode = "RGBA" ∨ img.mode = "LA") := by
      rcases hpass with h | h <;> rw [h] <;> decide
    unfold normalizeMode
    rw [if_neg hne, if_neg (not_not_intro hpass)]
  · intro hne hne'
    have hn : normalizeMode img = convertToRGB img := by
      unfold normalizeMode
      rw [if_neg hne, if_pos hne']
    exact ⟨hn, by rw [hn]; rfl⟩
  · intro px ha
    simp only [compositePixel]
    rw [ha]
    unfold pasteSourceRGB
    split
    · simp [blendChannel_transparent]
    · simp [blendChannel_transparent]
  · intro px ha hb
    simp only [compositePixel]
    rw [ha]
    exact map_blendChannel_alpha255 _ hb

/-- Witness for C7: the 2 by 1 RGBA image is composited onto white — its fully
transparent pixel becomes pure white and its fully opaque pixel keeps its
RGB channels — and the result is an RGB image. -/
theorem C7_color_normalization_witness :
    (imgRGBA.mode = "RGBA" ∨ imgRGBA.mode = "LA") ∧
    normalizeMode imgRGBA = compositeOntoWhite imgRGBA ∧
    (normalizeMode imgRGBA).mode = "RGB" ∧
    (normalizeMode imgRGBA).pixels = [[[255, 255, 255], [40, 50, 60]]] := by
  have h := (C7_color_normalization imgRGBA).1 (Or.inl rfl)
  exact ⟨Or.inl rfl, h.1, h.2.1, by decide⟩

theorem computeTargetDims_zero (img : PILImage) (q : ℚ) (hq : 0 < q)
    (hzero : truncQ ((img.width : ℚ) * q) = 0 ∨ truncQ ((img.height : ℚ) * q) = 0) :
    0 ≤ (computeTargetDims img.width img.height q).newWidth ∧
    0 ≤ (computeTargetDims img.width img.height q).newHeight ∧
    ((computeTargetDims img.width img.height q).newWidth = 0 ∨
      (computeTargetDims img.width img.height q).newHeight = 0) := by
  have hw0 : (0 : ℚ) ≤ (img.width : ℚ) := by positivity
  have hh0 : (0 : ℚ) ≤ (img.height : ℚ) := by positivity
  by_cases hcond : (MAX_DIMENSION : ℤ) < truncQ ((img.width : ℚ) * q) ∨
      (MAX_DIMENSION : ℤ) < truncQ ((img.height : ℚ) * q)
  · rw [computeTargetDims_clamped _ _ _ hcond]
    have hF0 : 0 ≤ min (min ((MAX_DIMENSION : ℚ) / (img.width : ℚ))
        ((MAX_DIMENSION : ℚ) / (img.height : ℚ))) q :=
      le_min (le_min (div_nonneg (by norm_num) hw0) (div_nonneg (by norm_num) hh0)) hq.le
    have hFq : min (min ((MAX_DIMENSION : ℚ) / (img.width : ℚ))
        ((MAX_DIMENSION : ℚ) / (img.height : ℚ))) q ≤ q := min_le_right _ _
    have hxw : (0 : ℚ) ≤ (img.width : ℚ) * (min (min ((MAX_DIMENSION : ℚ) / (img.width : ℚ))
        ((MAX_DIMENSION : ℚ) / (img.height : ℚ))) q) := mul_nonneg hw0 hF0
    have hxh : (0 : ℚ) ≤ (img.height : ℚ) * (min (min ((MAX_DIMENSION : ℚ) / (img.width : ℚ))
        ((MAX_DIMENSION : ℚ) / (img.height : ℚ))) q) := mul_nonneg hh0 hF0
    refine ⟨truncQ_nonneg hxw, truncQ_nonneg hxh, ?_⟩
    rcases hzero with hz | hz
    · left
      apply truncQ_eq_zero hxw
      calc (img.width : ℚ) * (min (min ((MAX_DIMENSION : ℚ) / (img.width : ℚ))
            ((MAX_DIMENSION : ℚ) / (img.height : ℚ))) q)
          ≤ (img.width : ℚ) * q := mul_le_mul_of_nonneg_left hFq hw0
        _ < 1 := lt_one_of_truncQ_eq_zero (mul_nonneg hw0 hq.le) hz
    · right
      apply truncQ_eq_zero hxh
      calc (img.height : ℚ) * (min (min ((MAX_DIMENSION : ℚ) / (img.width : ℚ))
            ((MAX_DIMENSION : ℚ) / (img.height : ℚ))) q)
          ≤ (img.height : ℚ) * q := mul_le_mul_of_nonneg_left hFq hh0
        _ < 1 := lt_one_of_truncQ_eq_zero (mul_nonneg hh0 hq.le) hz
  · rw [computeTargetDims_unclamped _ _ _ hcond]
    exact ⟨truncQ_nonneg (mul_nonneg hw0 hq.le), truncQ_nonneg (mul_nonneg hh0 hq.le), hzero⟩

theorem process_image_zero_dim (img : PILImage) (q : ℚ) (hq : 0 < q)
    (hzero : truncQ ((img.width : ℚ) * q) = 0 ∨ truncQ ((img.height : ℚ) * q) = 0) :
    process_image (.image img) q =
      .error ⟨422, "Image processing failed: cannot write empty image as JPEG"⟩ := by
  have hW : (normalizeMode img).width = img.width := normalizeMode_width img
  have hH : (normalizeMode img).height = img.height := normalizeMode_height img
  obtain ⟨hkw, hkh, hkz⟩ := computeTargetDims_zero img q hq hzero
  have hrsz := resizeImage_ok (normalizeMode img)
      (computeTargetDims (normalizeMode img).width (normalizeMode img).height q).newWidth
      (computeTargetDims (normalizeMode img).width (normalizeMode img).height q).newHeight
      (by rw [hW, hH]; exact hkw) (by rw [hW, hH]; exact hkh)
  have hz' : (computeTargetDims (normalizeMode img).width (normalizeMode img).height q).newWidth.toNat = 0 ∨
      (computeTargetDims (normalizeMode img).width (normalizeMode img).height q).newHeight.toNat = 0 := by
    rw [hW, hH]
    rcases hkz with h | h
    · left
      rw [h]
      rfl
    · right
      rw [h]
      rfl
  have henc : jpegEncode (unsharpMask
      (⟨(normalizeMode img).mode,
        (computeTargetDims (normalizeMode img).width (normalizeMode img).height q).newWidth.toNat,
        (computeTargetDims (normalizeMode img).width (normalizeMode img).height q).newHeight.toNat,
        resampleGrid (normalizeMode img)
          (computeTargetDims (normalizeMode img).width (normalizeMode img).height q).newWidth.toNat
          (computeTargetDims (normalizeMode img).width (normalizeMode img).height q).newHeight.toNat,
        (normalizeMode img).palette⟩ : PILImage)) = .error "cannot write empty image as JPEG" := by
    simp only [unsharpMask, jpegEncode]
    rw [if_pos hz']
  unfold process_image
  rw [processImageBody_image img q]
  simp only [hrsz, henc]
  rfl

/-- C9: a scale factor accepted by the domain check can drive an accepted
image's computed output dimensions to zero (floor(origW*s) = 0); for every
request whose checks all pass and whose computed width or height floors to
zero, the transform cannot produce an image and the request fails with the
422 processing error instead of succeeding. -/
theorem C9_zero_output_dimension_fails (req : UpscaleRequest) (img : PILImage) (q : ℚ)
    (hsf : req.scale_factor = .finite q)
    (hdec : req.decoded = .image img)
    (hscale : scaleFactorRejected req.scale_factor = false)
    (hvalid : validate_image_file req.file = (true, ""))
    (hsize : ¬ MAX_FILE_SIZE < req.file_content.length)
    (hq : 0 < q)
    (hzero : truncQ ((img.width : ℚ) * q) = 0 ∨ truncQ ((img.height : ℚ) * q) = 0) :
    upscale_image req =
      renderHTTPException ⟨422, "Image processing failed: cannot write empty image as JPEG"⟩ ∧
    (upscale_image req).status_code = 422 := by
  have hfail : transformOutcome req =
      .error ⟨422, "Image processing failed: cannot write empty image as JPEG"⟩ := by
    simp only [transformOutcome, hsf, hdec]
    exact process_image_zero_dim img q hq hzero
  have hup : upscale_image req =
      renderHTTPException ⟨422, "Image processing failed: cannot write empty image as JPEG"⟩ := by
    simp [upscale_image, hscale, hvalid, hsize, hfail]
  refine ⟨hup, ?_⟩
  rw [hup, renderHTTPException_422 _ rfl]

/-- Witness for C9: scale factor 1/1000 passes the domain check, the 100 by
100 image passes validation, floor(100 * 1/1000) = 0, and the request ends in
422. -/
theorem C9_zero_output_dimension_fails_witness :
    smallScaleRequest.scale_factor = PyFloat.finite (1 / 1000) ∧
    scaleFactorRejected smallScaleRequest.scale_factor = false ∧
    validate_image_file smallScaleRequest.file = (true, "") ∧
    (0 : ℚ) < 1 / 1000 ∧
    truncQ ((img100.width : ℚ) * (1 / 1000)) = 0 ∧
    (upscale_image smallScaleRequest).status_code = 422 := by
  have hscale : scaleFactorRejected smallScaleRequest.scale_factor = false := by
    norm_num [smallScaleRequest, scaleFactorRejected, pyLe, pyLt]
  have hzero : truncQ ((img100.width : ℚ) * (1 / 1000)) = 0 := by
    have harg : ((img100.width : ℕ) : ℚ) * (1 / 1000) = 1 / 10 := by
      norm_num [img100]
    rw [harg, truncQ_of_nonneg (by norm_num)]
    norm_num
  refine ⟨rfl, hscale, by decide, by norm_num, hzero, ?_⟩
  exact (C9_zero_output_dimension_fails smallScaleRequest img100 (1 / 1000) rfl rfl hscale
    (by decide) (by decide) (by norm_num) (Or.inl hzero)).2

/-- C10: process_image is deterministic and independent of cross-request
state: threading it through the request_counts state returns it unchanged and
the result is the same whatever the state holds, and two invocations on
identical inputs return identical output bytes and metadata. -/
theorem C10_process_image_deterministic (st1 st2 : RateState) (decoded : DecodeOutcome)
    (s : ℚ) :
    (process_image_stateful st1 decoded s).1 = (process_image_stateful st2 decoded s).1 ∧
    (process_image_stateful st1 decoded s).2 = st1 ∧
    process_image decoded s = process_image decoded s :=
  ⟨rfl, rfl, rfl⟩
